import Mathlib

/-!
# An AI Chatbot with Redis Caching — verification of the cache-aside core

Shallow embedding of the repository's three modules:

* `src/main.py` — key derivation (`generate_cache_key`), the `chat`
  orchestrator and the `cache_stats` reporting endpoint;
* `src/cache.py` — the `RedisCache` store wrapper (`get`/`set`/`delete`/
  `clear_all`) with its soft-failure policy;
* `src/ai_engine.py` — `AIEngine.generate_response` with its degraded
  fallback on provider errors.

Python strings are modelled as lists of Unicode code points (`PyStr`).
`str.lower`/`str.strip` are modelled on the ASCII fragment (lower-casing
the Latin letters `A`–`Z`, stripping the ASCII whitespace code points),
which is the fragment the repository's behaviour depends on.  The effectful
parts (the Redis connection and the OpenAI call) are modelled by explicit
state passing: `RedisState` carries the key-value store together with a
reachability flag (an unreachable store makes every Redis command raise,
which the wrappers catch), and the provider call receives its outcome as an
explicit `GenOutcome` oracle.
-/

/-- A Python `str`, as its list of Unicode code points. -/
abbrev PyStr := List Nat

/-- Code points of a Lean string literal, for concrete inputs. -/
def pyOfString (s : String) : PyStr := s.toList.map Char.toNat

/-- ASCII whitespace recognised by `str.strip()`:
tab, LF, VT, FF, CR, space. -/
def isSpaceCp (c : Nat) : Bool :=
  if c = 9 ∨ c = 10 ∨ c = 11 ∨ c = 12 ∨ c = 13 ∨ c = 32 then true else false

/-- `str.lower()` on one code point (ASCII fragment): `A`–`Z` map down by 32,
everything else is fixed. -/
def lowerCp (c : Nat) : Nat :=
  if 65 ≤ c ∧ c ≤ 90 then c + 32 else c

/-- `s.lower()`. -/
def pyLower (s : PyStr) : PyStr := s.map lowerCp

/-- `s.strip()`: drop leading and trailing whitespace. -/
def pyStrip (s : PyStr) : PyStr :=
  (((s.dropWhile isSpaceCp).reverse).dropWhile isSpaceCp).reverse

/-- UTF-8 encoding of one code point (as in `str.encode()`). -/
def utf8Cp (c : Nat) : List Nat :=
  if c < 0x80 then [c]
  else if c < 0x800 then [0xC0 + c / 64, 0x80 + c % 64]
  else if c < 0x10000 then [0xE0 + c / 4096, 0x80 + c / 64 % 64, 0x80 + c % 64]
  else [0xF0 + c / 262144, 0x80 + c / 4096 % 64, 0x80 + c / 64 % 64, 0x80 + c % 64]

/-- `s.encode()`: UTF-8 bytes of a string. -/
def utf8Encode (s : PyStr) : List Nat := s.flatMap utf8Cp

/-! ## MD5 (`hashlib.md5`), RFC 1321, over byte lists -/

/-- The 64 MD5 sine-derived constants `K[i]`. -/
def md5K : List Nat :=
  [0xd76aa478, 0xe8c7b756, 0x242070db, 0xc1bdceee,
   0xf57c0faf, 0x4787c62a, 0xa8304613, 0xfd469501,
   0x698098d8, 0x8b44f7af, 0xffff5bb1, 0x895cd7be,
   0x6b901122, 0xfd987193, 0xa679438e, 0x49b40821,
   0xf61e2562, 0xc040b340, 0x265e5a51, 0xe9b6c7aa,
   0xd62f105d, 0x02441453, 0xd8a1e681, 0xe7d3fbc8,
   0x21e1cde6, 0xc33707d6, 0xf4d50d87, 0x455a14ed,
   0xa9e3e905, 0xfcefa3f8, 0x676f02d9, 0x8d2a4c8a,
   0xfffa3942, 0x8771f681, 0x6d9d6122, 0xfde5380c,
   0xa4beea44, 0x4bdecfa9, 0xf6bb4b60, 0xbebfbc70,
   0x289b7ec6, 0xeaa127fa, 0xd4ef3085, 0x04881d05,
   0xd9d4d039, 0xe6db99e5, 0x1fa27cf8, 0xc4ac5665,
   0xf4292244, 0x432aff97, 0xab9423a7, 0xfc93a039,
   0x655b59c3, 0x8f0ccc92, 0xffeff47d, 0x85845dd1,
   0x6fa87e4f, 0xfe2ce6e0, 0xa3014314, 0x4e0811a1,
   0xf7537e82, 0xbd3af235, 0x2ad7d2bb, 0xeb86d391]

/-- The 64 MD5 per-round left-rotation amounts `s[i]`. -/
def md5S : List Nat :=
  [7, 12, 17, 22, 7, 12, 17, 22, 7, 12, 17, 22, 7, 12, 17, 22,
   5, 9, 14, 20, 5, 9, 14, 20, 5, 9, 14, 20, 5, 9, 14, 20,
   4, 11, 16, 23, 4, 11, 16, 23, 4, 11, 16, 23, 4, 11, 16, 23,
   6, 10, 15, 21, 6, 10, 15, 21, 6, 10, 15, 21, 6, 10, 15, 21]

/-- 32-bit left rotation. -/
def rotl32 (x c : Nat) : Nat :=
  ((x <<< c) ||| (x >>> (32 - c))) &&& 0xffffffff

/-- Little-endian 32-bit word `g` of a 64-byte chunk. -/
def md5Word (chunk : List Nat) (g : Nat) : Nat :=
  chunk.getD (4 * g) 0 + 2 ^ 8 * chunk.getD (4 * g + 1) 0 +
    2 ^ 16 * chunk.getD (4 * g + 2) 0 + 2 ^ 24 * chunk.getD (4 * g + 3) 0

/-- Running MD5 state: the four 32-bit registers `(A, B, C, D)`. -/
abbrev Md5St := Nat × Nat × Nat × Nat

/-- One of the 64 MD5 rounds on a chunk. -/
def md5Step (chunk : List Nat) (st : Md5St) (i : Nat) : Md5St :=
  let a := st.1
  let b := st.2.1
  let c := st.2.2.1
  let d := st.2.2.2
  let f :=
    if i < 16 then (b &&& c) ||| ((b ^^^ 0xffffffff) &&& d)
    else if i < 32 then (d &&& b) ||| ((d ^^^ 0xffffffff) &&& c)
    else if i < 48 then b ^^^ c ^^^ d
    else c ^^^ (b ||| (d ^^^ 0xffffffff))
  let g :=
    if i < 16 then i
    else if i < 32 then (5 * i + 1) % 16
    else if i < 48 then (3 * i + 5) % 16
    else (7 * i) % 16
  let f2 := (f + a + md5K.getD i 0 + md5Word chunk g) % 2 ^ 32
  (d, (b + rotl32 f2 (md5S.getD i 0)) % 2 ^ 32, b, c)

/-- Process one 64-byte chunk, adding the round result into the registers. -/
def md5Chunk (st : Md5St) (chunk : List Nat) : Md5St :=
  let r := (List.range 64).foldl (md5Step chunk) st
  ((st.1 + r.1) % 2 ^ 32, (st.2.1 + r.2.1) % 2 ^ 32,
   (st.2.2.1 + r.2.2.1) % 2 ^ 32, (st.2.2.2 + r.2.2.2) % 2 ^ 32)

/-- A 32-bit word as 4 little-endian bytes. -/
def le32 (x : Nat) : List Nat :=
  [x % 256, x / 2 ^ 8 % 256, x / 2 ^ 16 % 256, x / 2 ^ 24 % 256]

/-- A 64-bit word as 8 little-endian bytes. -/
def le64 (x : Nat) : List Nat := le32 (x % 2 ^ 32) ++ le32 (x / 2 ^ 32)

/-- MD5 padding: `0x80`, zeros to 56 mod 64, then the bit length in 64 bits. -/
def md5Pad (msg : List Nat) : List Nat :=
  msg ++ [0x80] ++ List.replicate ((119 - msg.length % 64) % 64) 0 ++
    le64 ((8 * msg.length) % 2 ^ 64)

/-- Split a byte list into 64-byte chunks (`fuel` bounds the recursion; each
step strictly shortens a non-empty list, so `l.length` is always enough). -/
def toChunks64Aux : Nat → List Nat → List (List Nat)
  | 0, _ => []
  | fuel + 1, l => if l = [] then [] else l.take 64 :: toChunks64Aux fuel (l.drop 64)

/-- Split a byte list into 64-byte chunks. -/
def toChunks64 (l : List Nat) : List (List Nat) := toChunks64Aux l.length l

/-- The 16-byte MD5 digest of a byte list. -/
def md5 (msg : List Nat) : List Nat :=
  let st := (toChunks64 (md5Pad msg)).foldl md5Chunk
    (0x67452301, 0xefcdab89, 0x98badcfe, 0x10325476)
  le32 st.1 ++ le32 st.2.1 ++ le32 st.2.2.1 ++ le32 st.2.2.2

/-- Lowercase hex digit for a nibble, as a code point. -/
def hexDigitCp (n : Nat) : Nat := if n < 10 then 48 + n else 87 + n

/-- Two lowercase hex digits of one byte. -/
def toHexPair (b : Nat) : List Nat := [hexDigitCp (b / 16 % 16), hexDigitCp (b % 16)]

/-- `.hexdigest()`: the digest bytes in lowercase hex. -/
def hexdigest (bytes : List Nat) : PyStr := bytes.flatMap toHexPair

/-- `main.generate_cache_key`: md5 hexdigest of the lowercased, stripped
query's UTF-8 bytes. -/
def generate_cache_key (query : PyStr) : PyStr :=
  let normalized_query := pyStrip (pyLower query)
  hexdigest (md5 (utf8Encode normalized_query))

/-- The spec's `normalize`: lowercase then trim, as `generate_cache_key`
performs before hashing (`query.lower().strip()`). -/
def normalizeQuery (query : PyStr) : PyStr := pyStrip (pyLower query)

/-! ## The cache store (`src/cache.py`) -/

/-- The dict persisted by `chat` (`response_data`) and read back on a hit:
`{query, response, cached, timestamp}`.  `timestamp` is the `time.time()`
value at generation, modelled as an abstract tick. -/
structure CacheEntry where
  query : PyStr
  response : PyStr
  cached : Bool
  timestamp : Nat
deriving DecidableEq, Repr

/-- A value as stored in Redis: either the `json.dumps` serialization of an
entry dict (which `json.loads` round-trips), or a string `json.loads`
rejects (malformed/corrupt data, including the empty string). -/
inductive StoredVal where
  | valid (e : CacheEntry)
  | malformed (raw : PyStr)
deriving DecidableEq, Repr

/-- A stored value together with the TTL (seconds) given to `setex`. -/
structure Stored where
  val : StoredVal
  ttl : Nat
deriving DecidableEq, Repr

/-- The Redis connection's observable state: the keyspace, plus whether the
server is reachable (every command raises when it is not; the wrappers
catch that). -/
structure RedisState where
  store : List (PyStr × Stored)
  reachable : Bool
deriving DecidableEq, Repr

/-- First binding of a key in the keyspace. -/
def lookupKey : List (PyStr × Stored) → PyStr → Option Stored
  | [], _ => none
  | kv :: rest, k => if kv.1 = k then some kv.2 else lookupKey rest k

/-- Remove every binding of a key. -/
def eraseKey : List (PyStr × Stored) → PyStr → List (PyStr × Stored)
  | [], _ => []
  | kv :: rest, k => if kv.1 = k then eraseKey rest k else kv :: eraseKey rest k

namespace RedisCache

/-- `RedisCache.get`: on any Redis error return `None`; on a present key,
`json.loads` the data (a parse failure is caught and becomes `None`); on an
absent key return `None`. -/
def get (st : RedisState) (key : PyStr) : Option CacheEntry :=
  if st.reachable then
    match lookupKey st.store key with
    | some s =>
      match s.val with
      | .valid e => some e
      | .malformed _ => none
    | none => none
  else none

/-- `RedisCache.set`: `setex key expiration (json.dumps value)`, overwriting
any previous binding; returns `True` on success, and catches any Redis
error returning `False` with the keyspace unchanged. -/
def set (st : RedisState) (key : PyStr) (value : CacheEntry) (expiration : Nat) :
    RedisState × Bool :=
  if st.reachable then
    ({ st with store := (key, ⟨.valid value, expiration⟩) :: eraseKey st.store key }, true)
  else (st, false)

/-- `RedisCache.delete`: `bool(redis.delete key)` — `True` exactly when a
binding was removed; errors are caught and give `False`. -/
def delete (st : RedisState) (key : PyStr) : RedisState × Bool :=
  if st.reachable then
    ({ st with store := eraseKey st.store key }, (lookupKey st.store key).isSome)
  else (st, false)

/-- `RedisCache.clear_all`: `flushdb`, emptying the keyspace; errors are
caught and give `False`. -/
def clear_all (st : RedisState) : RedisState × Bool :=
  if st.reachable then ({ st with store := [] }, true) else (st, false)

end RedisCache

/-! ## The generation client (`src/ai_engine.py`) -/

/-- Outcome of the one `openai_client.chat.completions.create` call inside
`generate_response`: the provider's text, or the exception's description. -/
inductive GenOutcome where
  | ok (text : PyStr)
  | err (msg : PyStr)
deriving DecidableEq, Repr

namespace AIEngine

/-- `AIEngine.generate_response`: the provider's text on success; on any
exception, the fallback string
`f"AI response to: {query} (API Error: {str(e)})"`. -/
def generate_response (query : PyStr) (outcome : GenOutcome) : PyStr :=
  match outcome with
  | .ok text => text
  | .err e =>
    pyOfString "AI response to: " ++ query ++ pyOfString " (API Error: " ++ e ++
      pyOfString ")"

end AIEngine

/-! ## The orchestrator (`src/main.py`) -/

/-- The `ChatResponse` pydantic model returned by `/chat`. -/
structure ChatResponse where
  query : PyStr
  response : PyStr
  cached : Bool
  timestamp : Nat
deriving DecidableEq, Repr

/-- What `/chat` produces: a 200 envelope, or an `HTTPException`. -/
inductive ChatResult where
  | ok (resp : ChatResponse)
  | httpError (status : Nat) (detail : PyStr)
deriving DecidableEq, Repr

/-- One request through `chat`, with the collaborator interactions it
caused: the final store state, the result, and how many times the
generation client and `cache.set` were invoked. -/
structure ChatOutcome where
  state : RedisState
  result : ChatResult
  genCalls : Nat
  setCalls : Nat
deriving DecidableEq, Repr

/-- `main.chat`: strip the query; reject empty with a 400; derive the key;
on a cache hit answer from the stored dict with `cached=True`; on a miss
generate, store the response dict with a 600 s expiration, and answer it
with `cached=False`.  `now` is the `time.time()` value taken on the miss
path, and `gen` the provider-call oracle. -/
def chat (st : RedisState) (gen : GenOutcome) (now : Nat) (rawQuery : PyStr) :
    ChatOutcome :=
  let query := pyStrip rawQuery
  if query = [] then
    ⟨st, .httpError 400 (pyOfString "Query cannot be empty"), 0, 0⟩
  else
    let cache_key := generate_cache_key query
    match RedisCache.get st cache_key with
    | some cached_response =>
      ⟨st, .ok ⟨cached_response.query, cached_response.response, true,
        cached_response.timestamp⟩, 0, 0⟩
    | none =>
      let ai_response := AIEngine.generate_response query gen
      let response_data : CacheEntry := ⟨query, ai_response, false, now⟩
      ⟨(RedisCache.set st cache_key response_data 600).1,
        .ok ⟨query, ai_response, false, now⟩, 1, 1⟩

/-! ## Cache statistics (`/cache/stats`) -/

/-- The fields of `redis.info()` that `cache_stats` reads, each optional
(`info.get` with default 0). -/
structure RedisInfo where
  keyspace_hits : Option Nat
  keyspace_misses : Option Nat
deriving DecidableEq, Repr

/-- The counters part of the `/cache/stats` payload. -/
structure CacheStats where
  keyspace_hits : Option Nat
  keyspace_misses : Option Nat
  hit_rate : ℚ
deriving DecidableEq, Repr

/-- `main.cache_stats`: pass the counters through and compute
`hit_rate = hits / max(1, hits + misses)` (Python true division, modelled
exactly in ℚ). -/
def cache_stats (info : RedisInfo) : CacheStats :=
  let hits := info.keyspace_hits.getD 0
  let misses := info.keyspace_misses.getD 0
  ⟨info.keyspace_hits, info.keyspace_misses,
    (hits : ℚ) / ((max 1 (hits + misses) : Nat) : ℚ)⟩

/-- A lowercase hexadecimal digit, as a code point. -/
def isHexCp (c : Nat) : Prop := (48 ≤ c ∧ c ≤ 57) ∨ (97 ≤ c ∧ c ≤ 102)

instance : DecidablePred isHexCp := fun c => by
  unfold isHexCp
  infer_instance

/-! ## Normalization algebra -/

theorem dropWhile_head?_false {p : Nat → Bool} {l : List Nat} {x : Nat}
    (hx : (l.dropWhile p).head? = some x) : p x = false := by
  induction l with
  | nil => simp [List.dropWhile] at hx
  | cons a t ih =>
    rw [List.dropWhile_cons] at hx
    by_cases hpa : p a = true
    · rw [if_pos hpa] at hx
      exact ih hx
    · rw [if_neg hpa] at hx
      simp only [List.head?_cons, Option.some.injEq] at hx
      subst hx
      simpa using hpa

theorem dropWhile_getLast? {p : Nat → Bool} {l : List Nat}
    (hne : l.dropWhile p ≠ []) : (l.dropWhile p).getLast? = l.getLast? := by
  induction l with
  | nil => simp [List.dropWhile] at hne
  | cons a t ih =>
    rw [List.dropWhile_cons]
    rw [List.dropWhile_cons] at hne
    by_cases hpa : p a = true
    · rw [if_pos hpa]
      rw [if_pos hpa] at hne
      have ht : t ≠ [] := by
        intro h
        subst h
        simp [List.dropWhile] at hne
      obtain ⟨b, t', rfl⟩ := List.exists_cons_of_ne_nil ht
      rw [List.getLast?_cons_cons]
      exact ih hne
    · rw [if_neg hpa]

theorem dropWhile_of_head?_false {p : Nat → Bool} {l : List Nat}
    (h : ∀ x, l.head? = some x → p x = false) : l.dropWhile p = l := by
  cases l with
  | nil => rfl
  | cons a t =>
    rw [List.dropWhile_cons, if_neg]
    simp [h a rfl]

theorem dropWhile_map {p : Nat → Bool} {f : Nat → Nat}
    (hf : ∀ c, p (f c) = p c) (l : List Nat) :
    (l.map f).dropWhile p = (l.dropWhile p).map f := by
  induction l with
  | nil => rfl
  | cons a t ih =>
    simp only [List.map_cons, List.dropWhile_cons, hf a]
    by_cases hpa : p a = true
    · rw [if_pos hpa, if_pos hpa, ih]
    · rw [if_neg hpa, if_neg hpa, List.map_cons]

/-- The first code point of a stripped string is not whitespace. -/
theorem pyStrip_head?_false {l : List Nat} {x : Nat}
    (hx : (pyStrip l).head? = some x) : isSpaceCp x = false := by
  unfold pyStrip at hx
  rw [List.head?_reverse] at hx
  have hne : (l.dropWhile isSpaceCp).reverse.dropWhile isSpaceCp ≠ [] := by
    intro h
    rw [h] at hx
    simp at hx
  rw [dropWhile_getLast? hne, List.getLast?_reverse] at hx
  exact dropWhile_head?_false hx

/-- The last code point of a stripped string is not whitespace. -/
theorem pyStrip_getLast?_false {l : List Nat} {x : Nat}
    (hx : (pyStrip l).getLast? = some x) : isSpaceCp x = false := by
  unfold pyStrip at hx
  rw [List.getLast?_reverse] at hx
  exact dropWhile_head?_false hx

/-- A string whose two ends are not whitespace is fixed by `strip`. -/
theorem pyStrip_of_ends {l : List Nat}
    (hh : ∀ x, l.head? = some x → isSpaceCp x = false)
    (hl : ∀ x, l.getLast? = some x → isSpaceCp x = false) : pyStrip l = l := by
  unfold pyStrip
  rw [dropWhile_of_head?_false hh, dropWhile_of_head?_false, List.reverse_reverse]
  intro x hx
  rw [List.head?_reverse] at hx
  exact hl x hx

/-- `strip` is idempotent. -/
theorem pyStrip_idem (l : List Nat) : pyStrip (pyStrip l) = pyStrip l :=
  pyStrip_of_ends (fun _ hx => pyStrip_head?_false hx)
    (fun _ hx => pyStrip_getLast?_false hx)

theorem isSpaceCp_lowerCp (c : Nat) : isSpaceCp (lowerCp c) = isSpaceCp c := by
  unfold lowerCp
  by_cases h : 65 ≤ c ∧ c ≤ 90
  · rw [if_pos h]
    unfold isSpaceCp
    rw [if_neg, if_neg] <;> omega
  · rw [if_neg h]

theorem lowerCp_idem (c : Nat) : lowerCp (lowerCp c) = lowerCp c := by
  unfold lowerCp
  by_cases h : 65 ≤ c ∧ c ≤ 90
  · rw [if_pos h, if_neg]
    omega
  · rw [if_neg h, if_neg h]

/-- `lower` is idempotent. -/
theorem pyLower_idem (l : PyStr) : pyLower (pyLower l) = pyLower l := by
  unfold pyLower
  rw [List.map_map]
  exact List.map_congr_left fun a _ => lowerCp_idem a

/-- `lower` and `strip` commute. -/
theorem pyStrip_pyLower (l : PyStr) : pyStrip (pyLower l) = pyLower (pyStrip l) := by
  unfold pyStrip pyLower
  rw [dropWhile_map isSpaceCp_lowerCp, ← List.map_reverse,
    dropWhile_map isSpaceCp_lowerCp, ← List.map_reverse]

/-- Normalization absorbs a prior `strip`. -/
theorem normalizeQuery_pyStrip (q : PyStr) :
    normalizeQuery (pyStrip q) = normalizeQuery q := by
  unfold normalizeQuery
  rw [pyStrip_pyLower, ← pyStrip_pyLower, ← pyStrip_pyLower, pyStrip_idem]

/-- Normalization absorbs a prior `lower`. -/
theorem normalizeQuery_pyLower (q : PyStr) :
    normalizeQuery (pyLower q) = normalizeQuery q := by
  unfold normalizeQuery
  rw [pyLower_idem]

/-! ## Digest shape -/

theorem md5_length (msg : List Nat) : (md5 msg).length = 16 := by
  simp [md5, le32]

theorem hexdigest_length (bs : List Nat) : (hexdigest bs).length = 2 * bs.length := by
  induction bs with
  | nil => rfl
  | cons b t ih =>
    simp only [hexdigest, List.flatMap_cons] at *
    rw [List.length_append, ih, toHexPair, List.length_cons]
    simp
    omega

theorem hexDigitCp_isHex : ∀ n < 16, isHexCp (hexDigitCp n) := by decide

theorem mem_hexdigest_isHex {bs : List Nat} {c : Nat} (hc : c ∈ hexdigest bs) :
    isHexCp c := by
  induction bs with
  | nil => simp [hexdigest] at hc
  | cons b t ih =>
    simp only [hexdigest, List.flatMap_cons, List.mem_append] at hc
    rcases hc with hc | hc
    · simp only [toHexPair, List.mem_cons, List.not_mem_nil, or_false] at hc
      rcases hc with rfl | rfl
      · exact hexDigitCp_isHex _ (Nat.mod_lt _ (by norm_num))
      · exact hexDigitCp_isHex _ (Nat.mod_lt _ (by norm_num))
    · exact ih hc

/-! ## Store lemmas -/

theorem eraseKey_cons (kv : PyStr × Stored) (t : List (PyStr × Stored)) (k : PyStr) :
    eraseKey (kv :: t) k = if kv.1 = k then eraseKey t k else kv :: eraseKey t k := rfl

theorem lookupKey_cons (kv : PyStr × Stored) (t : List (PyStr × Stored)) (k : PyStr) :
    lookupKey (kv :: t) k = if kv.1 = k then some kv.2 else lookupKey t k := rfl

theorem lookupKey_eraseKey_self (s : List (PyStr × Stored)) (k : PyStr) :
    lookupKey (eraseKey s k) k = none := by
  induction s with
  | nil => rfl
  | cons kv t ih =>
    rw [eraseKey_cons]
    by_cases h : kv.1 = k
    · rw [if_pos h]
      exact ih
    · rw [if_neg h, lookupKey_cons, if_neg h]
      exact ih

theorem eraseKey_idem (s : List (PyStr × Stored)) (k : PyStr) :
    eraseKey (eraseKey s k) k = eraseKey s k := by
  induction s with
  | nil => rfl
  | cons kv t ih =>
    rw [eraseKey_cons]
    by_cases h : kv.1 = k
    · rw [if_pos h]
      exact ih
    · rw [if_neg h, eraseKey_cons, if_neg h, ih]

/-- `generate_cache_key` hashes exactly the normalized query. -/
theorem generate_cache_key_eq (q : PyStr) :
    generate_cache_key q = hexdigest (md5 (utf8Encode (normalizeQuery q))) := rfl

/-- Stripping leaves the claimed key unchanged. -/
theorem generate_cache_key_strip (q : PyStr) :
    generate_cache_key (pyStrip q) = generate_cache_key q := by
  rw [generate_cache_key_eq, generate_cache_key_eq, normalizeQuery_pyStrip]

/-- Lower-casing leaves the claimed key unchanged. -/
theorem generate_cache_key_lower (q : PyStr) :
    generate_cache_key (pyLower q) = generate_cache_key q := by
  rw [generate_cache_key_eq, generate_cache_key_eq, normalizeQuery_pyLower]

/-! ## Claims -/

set_option maxRecDepth 8192

/-- C3: `generate_cache_key` is a pure total Lean function; for every query
it returns a 32-character string of lowercase hexadecimal digits (the md5
hexdigest of the normalized query), and any two queries that agree after
lower-casing and stripping get the same key. -/
theorem generate_cache_key_hex_deterministic :
    (∀ q : PyStr, (generate_cache_key q).length = 32 ∧
      ∀ c ∈ generate_cache_key q, isHexCp c) ∧
    ∀ q1 q2 : PyStr, normalizeQuery q1 = normalizeQuery q2 →
      generate_cache_key q1 = generate_cache_key q2 := by
  refine ⟨fun q => ⟨?_, fun c hc => mem_hexdigest_isHex hc⟩, fun q1 q2 h => ?_⟩
  · rw [generate_cache_key_eq, hexdigest_length, md5_length]
  · rw [generate_cache_key_eq, generate_cache_key_eq, h]

/-- C3 witness: `"  Hello "` and `"hello"` normalize alike, so their keys
coincide. -/
theorem generate_cache_key_hex_deterministic_witness :
    generate_cache_key (pyOfString "  Hello ") = generate_cache_key (pyOfString "hello") :=
  generate_cache_key_hex_deterministic.2 _ _ (by decide)

/-- C9: deriving the key from the already-stripped (or already-lowercased)
query yields the same key as deriving it from the raw query, so the
orchestrator's `generate_cache_key(query.strip())` equals
`generate_cache_key(query)`. -/
theorem generate_cache_key_prenormalization (q : PyStr) :
    generate_cache_key (pyStrip q) = generate_cache_key q ∧
    generate_cache_key (pyLower q) = generate_cache_key q :=
  ⟨generate_cache_key_strip q, generate_cache_key_lower q⟩

/-- C9 witness: the invariance at a concrete raw query. -/
theorem generate_cache_key_prenormalization_witness :
    generate_cache_key (pyStrip (pyOfString " Hi ")) = generate_cache_key (pyOfString " Hi ") :=
  (generate_cache_key_prenormalization (pyOfString " Hi ")).1

/-- C4: a query that strips to empty is rejected with the 400
`HTTPException` "Query cannot be empty"; the store and both interaction
counters are untouched (zero generation calls, zero `cache.set` calls). -/
theorem chat_rejects_empty_query (st : RedisState) (gen : GenOutcome) (now : Nat)
    (q : PyStr) (hq : pyStrip q = []) :
    chat st gen now q =
      ⟨st, .httpError 400 (pyOfString "Query cannot be empty"), 0, 0⟩ := by
  simp only [chat]
  rw [if_pos hq]

/-- C4 witness: the whitespace-only query `"   "` is rejected on a live
empty store. -/
theorem chat_rejects_empty_query_witness :
    chat ⟨[], true⟩ (.ok (pyOfString "unused")) 0 (pyOfString "   ") =
      ⟨⟨[], true⟩, .httpError 400 (pyOfString "Query cannot be empty"), 0, 0⟩ :=
  chat_rejects_empty_query _ _ _ _ (by decide)

/-- C10: `RedisCache.get` is total (it returns an `Option`, never raises):
an absent key yields `none`, and a stored value that `json.loads` rejects
also yields `none`, indistinguishable from a miss. -/
theorem redis_get_absent_or_malformed_is_none (st : RedisState) (key : PyStr) :
    (lookupKey st.store key = none → RedisCache.get st key = none) ∧
    ∀ raw t, lookupKey st.store key = some ⟨.malformed raw, t⟩ →
      RedisCache.get st key = none := by
  constructor
  · intro h
    unfold RedisCache.get
    rw [h]
    simp
  · intro raw t h
    unfold RedisCache.get
    rw [h]
    simp

/-- C10 witness: a key bound to a malformed blob reads back as a miss. -/
theorem redis_get_absent_or_malformed_is_none_witness :
    RedisCache.get ⟨[(pyOfString "k", ⟨.malformed (pyOfString "not json"), 600⟩)], true⟩
      (pyOfString "k") = none :=
  (redis_get_absent_or_malformed_is_none _ _).2 (pyOfString "not json") 600 (by decide)

/-- C7: on a reachable store, `delete` returns exactly whether the key was
bound, removes it, and a second `delete` of the same key is a reported
no-op that leaves the state unchanged; `clear_all` empties the store and a
repeated call is a safe success on the already-empty store. -/
theorem delete_clear_idempotent (st : RedisState) (key : PyStr)
    (hre : st.reachable = true) :
    (RedisCache.delete st key).2 = (lookupKey st.store key).isSome ∧
    lookupKey (RedisCache.delete st key).1.store key = none ∧
    (RedisCache.delete (RedisCache.delete st key).1 key).2 = false ∧
    (RedisCache.delete (RedisCache.delete st key).1 key).1 = (RedisCache.delete st key).1 ∧
    (RedisCache.clear_all st).1.store = [] ∧
    (RedisCache.clear_all (RedisCache.clear_all st).1).2 = true ∧
    (RedisCache.clear_all (RedisCache.clear_all st).1).1.store = [] := by
  simp [RedisCache.delete, RedisCache.clear_all, hre, lookupKey_eraseKey_self,
    eraseKey_idem]

/-- C7 witness: a singleton store — first delete reports a removal, the
second reports a no-op. -/
theorem delete_clear_idempotent_witness :
    (RedisCache.delete
      (RedisCache.delete
        ⟨[(pyOfString "k", ⟨.valid ⟨pyOfString "q", pyOfString "r", false, 0⟩, 600⟩)], true⟩
        (pyOfString "k")).1 (pyOfString "k")).2 = false :=
  (delete_clear_idempotent _ _ rfl).2.2.1

/-- C8: `/cache/stats` computes `hit_rate = hits / max(1, hits + misses)`
from the passed-through keyspace counters; the denominator is positive (so
the division is the genuine ratio: rate times denominator gives back the
hits), and with zero hits and zero misses the reported rate is 0. -/
theorem cache_stats_hit_rate (info : RedisInfo) :
    (cache_stats info).hit_rate =
      ((info.keyspace_hits.getD 0 : Nat) : ℚ) /
        ((max 1 (info.keyspace_hits.getD 0 + info.keyspace_misses.getD 0) : Nat) : ℚ) ∧
    ((max 1 (info.keyspace_hits.getD 0 + info.keyspace_misses.getD 0) : Nat) : ℚ) ≠ 0 ∧
    (cache_stats info).hit_rate *
        ((max 1 (info.keyspace_hits.getD 0 + info.keyspace_misses.getD 0) : Nat) : ℚ) =
      ((info.keyspace_hits.getD 0 : Nat) : ℚ) ∧
    (info.keyspace_hits.getD 0 = 0 → info.keyspace_misses.getD 0 = 0 →
      (cache_stats info).hit_rate = 0) := by
  have hden : ((max 1 (info.keyspace_hits.getD 0 + info.keyspace_misses.getD 0) : Nat) : ℚ) ≠ 0 := by
    have h1 : 1 ≤ max 1 (info.keyspace_hits.getD 0 + info.keyspace_misses.getD 0) :=
      le_max_left _ _
    exact Nat.cast_ne_zero.mpr (by omega)
  refine ⟨rfl, hden, ?_, ?_⟩
  · rw [show (cache_stats info).hit_rate =
      ((info.keyspace_hits.getD 0 : Nat) : ℚ) /
        ((max 1 (info.keyspace_hits.getD 0 + info.keyspace_misses.getD 0) : Nat) : ℚ) from rfl]
    exact div_mul_cancel₀ _ hden
  · intro h1 _
    rw [show (cache_stats info).hit_rate =
      ((info.keyspace_hits.getD 0 : Nat) : ℚ) /
        ((max 1 (info.keyspace_hits.getD 0 + info.keyspace_misses.getD 0) : Nat) : ℚ) from rfl,
      h1]
    simp

/-- C8 witness: with both counters absent (defaulted to 0) the reported
hit rate is 0. -/
theorem cache_stats_hit_rate_witness : (cache_stats ⟨none, none⟩).hit_rate = 0 :=
  (cache_stats_hit_rate ⟨none, none⟩).2.2.2 rfl rfl

/-- C1: on a cache miss for a query with non-empty strip, on a reachable
store, `chat` invokes the generation client once on the stripped query,
stores under `generate_cache_key q` (equal to the key of the stripped
query) the entry `{query: stripped query, response: generated text,
cached: false, timestamp: now}` with a 600 s TTL, and returns the envelope
`{query, response, cached=false, timestamp=now}` — the stored and returned
timestamps are the same `now`. -/
theorem chat_miss_generates_stores_responds (st : RedisState) (gen : GenOutcome)
    (now : Nat) (q : PyStr) (hq : pyStrip q ≠ []) (hre : st.reachable = true)
    (hmiss : RedisCache.get st (generate_cache_key (pyStrip q)) = none) :
    (chat st gen now q).result =
      .ok ⟨pyStrip q, AIEngine.generate_response (pyStrip q) gen, false, now⟩ ∧
    (chat st gen now q).genCalls = 1 ∧
    lookupKey (chat st gen now q).state.store (generate_cache_key q) =
      some ⟨.valid ⟨pyStrip q, AIEngine.generate_response (pyStrip q) gen, false, now⟩,
        600⟩ := by
  have hchat : chat st gen now q =
      ⟨(RedisCache.set st (generate_cache_key (pyStrip q))
          ⟨pyStrip q, AIEngine.generate_response (pyStrip q) gen, false, now⟩ 600).1,
        .ok ⟨pyStrip q, AIEngine.generate_response (pyStrip q) gen, false, now⟩, 1, 1⟩ := by
    simp only [chat]
    rw [if_neg hq, hmiss]
  rw [hchat]
  refine ⟨rfl, rfl, ?_⟩
  unfold RedisCache.set
  rw [if_pos hre, ← generate_cache_key_strip q, lookupKey_cons, if_pos rfl]

/-- C1 witness: a miss on an empty live store for `"What is Go?"` causes
exactly one generation call. -/
theorem chat_miss_generates_stores_responds_witness :
    (chat ⟨[], true⟩ (.ok (pyOfString "Go is a language.")) 7
      (pyOfString "What is Go?")).genCalls = 1 :=
  (chat_miss_generates_stores_responds _ _ _ _ (by decide) rfl
    (by simp [RedisCache.get, lookupKey])).2.1

/-- C2: on a cache hit, `chat` returns `cached=true` with the query,
response and timestamp all taken from the stored entry (the original
generation data, not the current request's), makes zero generation calls
and zero store writes, and leaves the store untouched. -/
theorem chat_hit_serves_stored_entry (st : RedisState) (gen : GenOutcome) (now : Nat)
    (q : PyStr) (e : CacheEntry) (hq : pyStrip q ≠ [])
    (hhit : RedisCache.get st (generate_cache_key (pyStrip q)) = some e) :
    chat st gen now q = ⟨st, .ok ⟨e.query, e.response, true, e.timestamp⟩, 0, 0⟩ := by
  simp only [chat]
  rw [if_neg hq, hhit]

/-- C2 witness: `" HI "` hits the entry stored under the key of `"hi"` and
is answered with the stored query, response and timestamp. -/
theorem chat_hit_serves_stored_entry_witness :
    chat ⟨[(generate_cache_key (pyOfString "hi"),
        ⟨.valid ⟨pyOfString "hi", pyOfString "cached answer", false, 3⟩, 600⟩)], true⟩
      (.ok (pyOfString "fresh answer")) 9 (pyOfString " HI ") =
      ⟨⟨[(generate_cache_key (pyOfString "hi"),
          ⟨.valid ⟨pyOfString "hi", pyOfString "cached answer", false, 3⟩, 600⟩)], true⟩,
        .ok ⟨pyOfString "hi", pyOfString "cached answer", true, 3⟩, 0, 0⟩ :=
  chat_hit_serves_stored_entry _ _ _ _
    ⟨pyOfString "hi", pyOfString "cached answer", false, 3⟩ (by decide) (by decide)

/-- C5: when the provider call fails on a miss path, `chat` still returns a
success envelope with `cached=false` whose non-empty response embeds the
error description, and the store write is still attempted. -/
theorem chat_degraded_on_generation_failure (st : RedisState) (now : Nat)
    (q m : PyStr) (hq : pyStrip q ≠ [])
    (hmiss : RedisCache.get st (generate_cache_key (pyStrip q)) = none) :
    (chat st (.err m) now q).result =
      .ok ⟨pyStrip q, AIEngine.generate_response (pyStrip q) (.err m), false, now⟩ ∧
    AIEngine.generate_response (pyStrip q) (.err m) ≠ [] ∧
    (∃ u v, AIEngine.generate_response (pyStrip q) (.err m) = u ++ (m ++ v)) ∧
    (chat st (.err m) now q).setCalls = 1 := by
  have hchat : chat st (.err m) now q =
      ⟨(RedisCache.set st (generate_cache_key (pyStrip q))
          ⟨pyStrip q, AIEngine.generate_response (pyStrip q) (.err m), false, now⟩ 600).1,
        .ok ⟨pyStrip q, AIEngine.generate_response (pyStrip q) (.err m), false, now⟩,
        1, 1⟩ := by
    simp only [chat]
    rw [if_neg hq, hmiss]
  refine ⟨by rw [hchat], ?_, ?_, by rw [hchat]⟩
  · intro hnil
    have hlen := congrArg List.length hnil
    simp only [AIEngine.generate_response, List.length_append, List.length_nil] at hlen
    have h0 : (pyOfString "AI response to: ").length = 0 := by omega
    exact absurd h0 (by decide)
  · exact ⟨pyOfString "AI response to: " ++ pyStrip q ++ pyOfString " (API Error: ",
      pyOfString ")", by simp [AIEngine.generate_response, List.append_assoc]⟩

/-- C5 witness: a provider timeout on `"hi"` still attempts the store
write. -/
theorem chat_degraded_on_generation_failure_witness :
    (chat ⟨[], true⟩ (.err (pyOfString "timeout")) 4 (pyOfString "hi")).setCalls = 1 :=
  (chat_degraded_on_generation_failure _ _ _ _ (by decide)
    (by simp [RedisCache.get, lookupKey])).2.2.2

/-- C6: with the store unreachable every `get` surfaces as a miss and every
`set` reports `False` without touching anything, and `chat` on a non-empty
query still returns the freshly generated answer with `cached=false` (one
generation call, no exception). -/
theorem cache_store_unreachable_soft (st : RedisState) (gen : GenOutcome) (now : Nat)
    (q : PyStr) (hun : st.reachable = false) (hq : pyStrip q ≠ []) :
    (∀ key, RedisCache.get st key = none) ∧
    (∀ key e t, (RedisCache.set st key e t).2 = false ∧
      (RedisCache.set st key e t).1 = st) ∧
    (chat st gen now q).result =
      .ok ⟨pyStrip q, AIEngine.generate_response (pyStrip q) gen, false, now⟩ ∧
    (chat st gen now q).genCalls = 1 := by
  have hget : ∀ key, RedisCache.get st key = none := by
    intro key
    simp [RedisCache.get, hun]
  have hchat : chat st gen now q =
      ⟨(RedisCache.set st (generate_cache_key (pyStrip q))
          ⟨pyStrip q, AIEngine.generate_response (pyStrip q) gen, false, now⟩ 600).1,
        .ok ⟨pyStrip q, AIEngine.generate_response (pyStrip q) gen, false, now⟩, 1, 1⟩ := by
    simp only [chat]
    rw [if_neg hq, hget]
  refine ⟨hget, ?_, by rw [hchat], by rw [hchat]⟩
  intro key e t
  constructor <;> simp [RedisCache.set, hun]

/-- C6 witness: an unreachable store still yields the fresh provider answer
for `"hi"`. -/
theorem cache_store_unreachable_soft_witness :
    (chat ⟨[], false⟩ (.ok (pyOfString "an answer")) 2 (pyOfString "hi")).result =
      .ok ⟨pyOfString "hi", pyOfString "an answer", false, 2⟩ :=
  (cache_store_unreachable_soft _ _ _ _ rfl (by decide)).2.2.1
